import Mathlib

/-!
# Verification of the MODPATH basic-package config writer (`mpbas.py`)

Shallow embedding of `flopy/modpath/mpbas.py`: the `ModpathBas` constructor and
its `write_file` serialization routine, together with the fragments of the host
framework it touches (flow-package lookup on the parent model, and the external
array-formatting helpers `Util2d`/`Util3d`, which are not part of this
repository and are modelled from the specification where needed).

Floating-point scalars are embedded as rationals; the Python fixed-point
format `{:.6f}` is modelled exactly for values whose 6-decimal expansion is
exact (all values appearing in the claims are such values).
-/

/-! ## Python string-formatting primitives -/

/-- Right-justify a string in a field of width `w` by padding with spaces on
the left; a string already at least `w` long is returned unchanged
(Python `'{0:wd}'.format` / `'{0:w.6f}'.format` padding behavior). -/
def padLeft (w : Nat) (s : String) : String :=
  if w ≤ s.length then s
  else String.mk (List.replicate (w - s.length) ' ') ++ s

/-- Left-justify a string in a field of width `w` by padding with spaces on
the right (Python `'{0:ws}'.format` behavior for strings). -/
def padRight (w : Nat) (s : String) : String :=
  if w ≤ s.length then s
  else s ++ String.mk (List.replicate (w - s.length) ' ')

/-- Python `'{0:wd}'.format(n)`: decimal rendering of the integer,
right-justified in a width-`w` field. -/
def formatIntW (w : Nat) (n : Int) : String :=
  padLeft w (toString n)

/-- Python `'{0:ws}'.format(s)`: the string left-justified in a width-`w`
field. -/
def formatStrW (w : Nat) (s : String) : String :=
  padRight w s

/-- Split a character list into newline-separated segments; `cur` holds the
characters of the current segment in reverse. -/
def splitLinesAux : List Char → List Char → List String
  | [], cur => [String.mk cur.reverse]
  | c :: rest, cur =>
    if c = '\n' then String.mk cur.reverse :: splitLinesAux rest []
    else splitLinesAux rest (c :: cur)

/-- The lines of a text file body, in order (the segments between newline
characters; a trailing newline yields a final empty segment, as in Python's
`s.split('\n')`). -/
def fileLines (s : String) : List String :=
  splitLinesAux s.data []

/-- A natural number rendered as exactly six decimal digits with leading
zeros (the fractional part of a `%.6f` rendering). -/
def sixDigits (n : Nat) : String :=
  let s := toString n
  String.mk (List.replicate (6 - s.length) '0') ++ s

/-- The value `q` scaled by 10^6 and rounded to the nearest integer
(`⌊q·10^6 + 1/2⌋`, computed as a floor division on the numerator and
denominator). -/
def roundScaled6 (q : ℚ) : Int :=
  Int.fdiv (2 * q.num * 1000000 + (q.den : Int)) (2 * (q.den : Int))

/-- Python `'{0:.6f}'.format(x)` modelled on rationals: the value rounded to
six decimal places and rendered with a six-digit fractional part.  Exact for
every rational whose denominator divides 10^6, which covers all values the
program is specified on. -/
def fixed6 (q : ℚ) : String :=
  let n : Int := roundScaled6 q
  let sign := if n < 0 then "-" else ""
  sign ++ toString (n.natAbs / 1000000) ++ "." ++ sixDigits (n.natAbs % 1000000)

/-- Python `'{0:16.6f}'.format(x)`: the `%.6f` rendering right-justified in a
width-16 field. -/
def format16_6 (q : ℚ) : String :=
  padLeft 16 (fixed6 q)

/-! ## The host-model fragment the package touches

`write_file` probes the parent MODFLOW model for up to three flow packages,
`BCF6`, `LPF` and `UPW`, in that order; the BCF6 package exposes its per-layer
layer-type codes as `laycon`, the other two as `laytyp`. -/

/-- The `BCF6` flow package, as seen by `write_file`: its per-layer
layer-type array `laycon.get_value()`. -/
structure BCF6Pkg where
  laycon : List Int
  deriving Repr, DecidableEq

/-- The `LPF` flow package, as seen by `write_file`: its per-layer
layer-type array `laytyp.get_value()`. -/
structure LPFPkg where
  laytyp : List Int
  deriving Repr, DecidableEq

/-- The `UPW` flow package, as seen by `write_file`: its per-layer
layer-type array `laytyp.get_value()`. -/
structure UPWPkg where
  laytyp : List Int
  deriving Repr, DecidableEq

/-- The fragment of the parent MODFLOW model state that `ModpathBas` reads:
the grid dimensions `nrow_ncol_nlay_nper` and the three optional flow
packages returned by `get_package('BCF6'/'LPF'/'UPW')` (`none` models a
`get_package` call returning Python `None`). -/
structure MfModel where
  nrow : Nat
  ncol : Nat
  nlay : Nat
  nper : Nat
  bcf6 : Option BCF6Pkg
  lpf : Option LPFPkg
  upw : Option UPWPkg
  deriving Repr, DecidableEq

/-! ## The external array-formatting helper (`Util2d` / `Util3d`)

These live in `../utils`, outside this repository fragment; they are modelled
from the specification's description of the array-formatting collaborator. -/

/-- A raw array-or-scalar constructor argument for a grid-shaped array
(Python accepts either a scalar or a full array for `ibound`, `prsity`,
`prsityCB`). -/
inductive ArrInput (α : Type) where
  | scalar (v : α)
  | explicitArr (a : List (List (List α)))
  deriving Repr, DecidableEq

/-- Modelled from the spec: the external array-formatting helper `Util3d`
wraps a raw array-or-scalar input into a grid-shaped array; a scalar input
broadcasts to fill the full grid shape `(nlay, nrow, ncol)`. -/
def util3dResolve {α : Type} (nlay nrow ncol : Nat) (inp : ArrInput α) :
    List (List (List α)) :=
  match inp with
  | .scalar v => List.replicate nlay (List.replicate nrow (List.replicate ncol v))
  | .explicitArr a => a

/-- Concatenation of a list of text fragments, in order. -/
def concatStrs : List String → String
  | [] => ""
  | s :: rest => s ++ concatStrs rest

/-- Modelled from the spec: `Util2d.string` after `set_fmtin('(40I2)')`
renders a 1-D integer array one value per layer, each value in a
2-character-wide field, at most 40 values per line. -/
def fmt40I2 (vals : List Int) : String :=
  concatStrs ((vals.toChunks 40).map
    (fun chunk => concatStrs (chunk.map (formatIntW 2)) ++ "\n"))

/-- Modelled from the spec: `Util3d.get_file_entry` for an integer grid array
renders its own header/control line plus data records; the exact layout is a
capability of the external helper, modelled here as a control line naming the
array followed by one data record per layer row. -/
def util3dFileEntryInt (name : String) (arr : List (List (List Int))) : String :=
  "INTERNAL " ++ name ++ "\n" ++
    concatStrs (arr.map (fun layer =>
      concatStrs (layer.map (fun row =>
        concatStrs (row.map (fun v => formatIntW 10 v)) ++ "\n"))))

/-- Modelled from the spec: `Util3d.get_file_entry` for a floating-point grid
array, analogous to `util3dFileEntryInt`. -/
def util3dFileEntryRat (name : String) (arr : List (List (List ℚ))) : String :=
  "INTERNAL " ++ name ++ "\n" ++
    concatStrs (arr.map (fun layer =>
      concatStrs (layer.map (fun row =>
        concatStrs (row.map (fun v => padLeft 15 (fixed6 v))) ++ "\n"))))

/-! ## The `ModpathBas` package object and its constructor -/

/-- The `ModpathBas` package state after `__init__`: the constructor copies
its scalar arguments into attributes and wraps the three grid arrays through
`Util3d` (resolving scalar inputs by broadcast). -/
structure ModpathBas where
  heading1 : String
  heading2 : String
  hnoflo : ℚ
  hdry : ℚ
  def_face_ct : Int
  bud_label : Option (List String)
  def_iface : Option (List Int)
  laytyp : Int
  ibound : List (List (List Int))
  prsity : List (List (List ℚ))
  prsityCB : List (List (List ℚ))
  deriving Repr, DecidableEq

/-- `ModpathBas.__init__`: reads the grid shape from the parent model, sets
the two fixed heading strings, copies the scalar arguments, and resolves the
three array inputs to grid-shaped arrays (scalars broadcast).  The
constructor performs no validation of `def_face_ct` against the supplied
label/code sequences. -/
def ModpathBas.init (model : MfModel) (hnoflo : ℚ := -9999) (hdry : ℚ := -8888)
    (def_face_ct : Int := 0) (bud_label : Option (List String) := none)
    (def_iface : Option (List Int) := none) (laytyp : Int := 0)
    (ibound : ArrInput Int := .scalar 1) (prsity : ArrInput ℚ := .scalar (mkRat 3 10))
    (prsityCB : ArrInput ℚ := .scalar (mkRat 3 10)) : ModpathBas :=
  { heading1 := "# MPBAS for Modpath, generated by Flopy."
    heading2 := "#"
    hnoflo := hnoflo
    hdry := hdry
    def_face_ct := def_face_ct
    bud_label := bud_label
    def_iface := def_iface
    laytyp := laytyp
    ibound := util3dResolve model.nlay model.nrow model.ncol ibound
    prsity := util3dResolve model.nlay model.nrow model.ncol prsity
    prsityCB := util3dResolve model.nlay model.nrow model.ncol prsityCB }

/-! ## `write_file` -/

/-- The run-time failures the legacy `write_file` can raise. -/
inductive PyError where
  /-- Python `UnboundLocalError`: a local variable referenced before
  assignment (the named variable). -/
  | unboundLocal (name : String)
  /-- Python `IndexError`: sequence index out of range. -/
  | indexError
  /-- Python `TypeError`: `None` is not subscriptable. -/
  | noneNotSubscriptable
  deriving Repr, DecidableEq

/-- The observable outcome of one `write_file` call: the bytes flushed to the
output file before the call exited, whether `f_bas.close()` was reached, and
the exception (if any) that aborted the call. -/
structure WriteOutcome where
  content : String
  closed : Bool
  error : Option PyError
  deriving Repr, DecidableEq

/-- `self.bud_label[i]`: raises `TypeError` when `bud_label` is `None` and
`IndexError` when the index is out of range. -/
def budLabelGet (bl : Option (List String)) (i : Nat) : Except PyError String :=
  match bl with
  | none => .error .noneNotSubscriptable
  | some l =>
    match l.get? i with
    | none => .error .indexError
    | some s => .ok s

/-- `self.def_iface[i]`: raises `TypeError` when `def_iface` is `None` and
`IndexError` when the index is out of range. -/
def defIfaceGet (di : Option (List Int)) (i : Nat) : Except PyError Int :=
  match di with
  | none => .error .noneNotSubscriptable
  | some l =>
    match l.get? i with
    | none => .error .indexError
    | some v => .ok v

/-- The body of the `for i in range(def_face_ct)` loop, started at index `i`
with `k` iterations remaining: writes, for each entry, one width-20
left-justified label line and one width-2 face-code line, stopping at the
first lookup failure.  Returns the text written so far and the exception, if
any, that aborted the loop. -/
def faceLoopAux (bl : Option (List String)) (di : Option (List Int)) :
    Nat → Nat → String × Option PyError
  | _, 0 => ("", none)
  | i, Nat.succ k =>
    match budLabelGet bl i with
    | .error e => ("", some e)
    | .ok lbl =>
      match defIfaceGet di i with
      | .error e => (formatStrW 20 lbl ++ "\n", some e)
      | .ok code =>
        let line := formatStrW 20 lbl ++ "\n" ++ formatIntW 2 code ++ "\n"
        let rest := faceLoopAux bl di (i + 1) k
        (line ++ rest.1, rest.2)

/-- The `if self.def_face_ct > 0:` block of `write_file`: when the count is
positive, loop over indices `0 .. def_face_ct - 1`; otherwise write
nothing. -/
def faceLoop (ct : Int) (bl : Option (List String)) (di : Option (List Int)) :
    String × Option PyError :=
  if 0 < ct then faceLoopAux bl di 0 ct.toNat else ("", none)

/-- The flow-package probe of `write_file`: `get_package('BCF6')`, and if that
returns `None`, `get_package('LPF')`, and if that too returns `None`,
`get_package('UPW')`; the first package found supplies its own per-layer
layer-type array (`laycon` for BCF6, `laytyp` for LPF/UPW).  `none` means no
probe matched, leaving the local `lc` unassigned. -/
def resolveLayerVals (m : MfModel) : Option (List Int) :=
  match m.bcf6 with
  | some pkg => some pkg.laycon
  | none =>
    match m.lpf with
    | some pkg => some pkg.laytyp
    | none =>
      match m.upw with
      | some pkg => some pkg.laytyp
      | none => none

/-- The layer-type section of the output: the resolved layer-type array
rendered through `Util2d` with `fmtin` reset to `'(40I2)'`. -/
def layerSection (m : MfModel) : Option String :=
  (resolveLayerVals m).map fmt40I2

/-- The two banner comment lines `'#{0:s}\n#{1:s}\n'`. -/
def headerLines (p : ModpathBas) : String :=
  "#" ++ p.heading1 ++ "\n#" ++ p.heading2 ++ "\n"

/-- The `'{0:16.6f} {1:16.6f}\n'` line carrying `hnoflo` and `hdry`. -/
def scalarLine (p : ModpathBas) : String :=
  format16_6 p.hnoflo ++ " " ++ format16_6 p.hdry ++ "\n"

/-- The `'{0:4d}\n'` line carrying `def_face_ct`. -/
def faceCountLine (p : ModpathBas) : String :=
  formatIntW 4 p.def_face_ct ++ "\n"

/-- The three trailing grid-array sections: `ibound`, `prsity`, `prsityCB`,
each through `Util3d.get_file_entry`. -/
def arraysSection (p : ModpathBas) : String :=
  util3dFileEntryInt "ibound" p.ibound ++
    util3dFileEntryRat "prsity" p.prsity ++
    util3dFileEntryRat "prsityCB" p.prsityCB

/-- `ModpathBas.write_file`: opens the output file, writes the banner lines,
the `hnoflo`/`hdry` line, the face-count line, the label/face-code pairs, the
layer-type line(s) from the probed flow package, and the three grid arrays,
then closes the file.  There is no `try`/`finally` around the body: an
exception raised mid-way (a failing label/code lookup, or the unbound local
`lc` when no flow package is registered) aborts the call with the text
written so far flushed and `close()` never reached. -/
def ModpathBas.write_file (m : MfModel) (p : ModpathBas) : WriteOutcome :=
  let pre := headerLines p ++ scalarLine p ++ faceCountLine p
  match faceLoop p.def_face_ct p.bud_label p.def_iface with
  | (facePartial, some e) => ⟨pre ++ facePartial, false, some e⟩
  | (faceStr, none) =>
    match layerSection m with
    | none => ⟨pre ++ faceStr, false, some (PyError.unboundLocal "lc")⟩
    | some ls => ⟨pre ++ faceStr ++ ls ++ arraysSection p, true, none⟩

/-- A concrete parent model with a 1-layer 1×1 grid and only an LPF flow
package registered. -/
def mLpf : MfModel :=
  { nrow := 1, ncol := 1, nlay := 1, nper := 1
    bcf6 := none, lpf := some ⟨[0]⟩, upw := none }

/-- The same grid with no flow package registered at all. -/
def mNoFlow : MfModel :=
  { nrow := 1, ncol := 1, nlay := 1, nper := 1
    bcf6 := none, lpf := none, upw := none }

/-! ## Supporting lemmas -/

lemma splitLinesAux_line (l rest cur : List Char) (h : '\n' ∉ l) :
    splitLinesAux (l ++ '\n' :: rest) cur
      = String.mk (cur.reverse ++ l) :: splitLinesAux rest [] := by
  induction l generalizing cur with
  | nil => simp [splitLinesAux]
  | cons c t ih =>
    have hc : ¬(c = '\n') := fun hh => h (hh ▸ List.mem_cons_self c t)
    have ht : '\n' ∉ t := fun hm => h (List.mem_cons_of_mem _ hm)
    rw [List.cons_append]
    rw [show splitLinesAux (c :: (t ++ '\n' :: rest)) cur
        = splitLinesAux (t ++ '\n' :: rest) (c :: cur) by
      simp [splitLinesAux, hc]]
    rw [ih (c :: cur) ht]
    simp [List.reverse_cons, List.append_assoc]

lemma fileLines_third_line (s : String) (l0 l1 l2 rest : List Char)
    (hs : s.data = l0 ++ '\n' :: (l1 ++ '\n' :: (l2 ++ '\n' :: rest)))
    (h0 : '\n' ∉ l0) (h1 : '\n' ∉ l1) (h2 : '\n' ∉ l2) :
    (fileLines s).get? 2 = some (String.mk l2) := by
  unfold fileLines
  rw [hs, splitLinesAux_line _ _ _ h0, splitLinesAux_line _ _ _ h1,
    splitLinesAux_line _ _ _ h2]
  simp

/-- Every branch of `write_file` flushes the banner lines, the scalar line
and the face-count line before anything else. -/
lemma write_file_content_shape (m : MfModel) (p : ModpathBas) :
    ∃ t, (ModpathBas.write_file m p).content
      = headerLines p ++ scalarLine p ++ faceCountLine p ++ t := by
  rcases hf : faceLoop p.def_face_ct p.bud_label p.def_iface with ⟨fs, e⟩
  cases e with
  | none =>
    cases hl : layerSection m with
    | none =>
      exact ⟨fs, by simp [ModpathBas.write_file, hf, hl]⟩
    | some ls =>
      exact ⟨fs ++ (ls ++ arraysSection p),
        by simp [ModpathBas.write_file, hf, hl, String.append_assoc]⟩
  | some e =>
    exact ⟨fs, by simp [ModpathBas.write_file, hf]⟩

/-- The face-pair loop, run from index `i` for `k` steps over sequences long
enough for every lookup: it succeeds and writes, per entry, the width-20
label line then the width-2 code line. -/
lemma faceLoopAux_ok (labels : List String) (codes : List Int) :
    ∀ (k i : Nat), i + k ≤ labels.length → i + k ≤ codes.length →
    faceLoopAux (some labels) (some codes) i k
      = (concatStrs ((((labels.drop i).take k).zip ((codes.drop i).take k)).map
          (fun pc => formatStrW 20 pc.1 ++ "\n" ++ formatIntW 2 pc.2 ++ "\n")), none) := by
  intro k
  induction k with
  | zero => intro i h1 h2; simp [faceLoopAux, concatStrs]
  | succ k ih =>
    intro i h1 h2
    have hi1 : i < labels.length := by omega
    have hi2 : i < codes.length := by omega
    have hg1 : labels[i]? = some labels[i] := List.getElem?_eq_getElem hi1
    have hg2 : codes[i]? = some codes[i] := List.getElem?_eq_getElem hi2
    have e1 : budLabelGet (some labels) i = .ok labels[i] := by
      simp [budLabelGet, hg1]
    have e2 : defIfaceGet (some codes) i = .ok codes[i] := by
      simp [defIfaceGet, hg2]
    have ihh := ih (i + 1) (by omega) (by omega)
    rw [List.drop_eq_getElem_cons hi1, List.drop_eq_getElem_cons hi2,
      List.take_succ_cons, List.take_succ_cons, List.zip_cons_cons, List.map_cons]
    simp [faceLoopAux, e1, e2, ihh, concatStrs, String.append_assoc]

/-! ## Concrete fixtures -/

/-- A default-constructed `ModpathBas` attached to the flow-package-less
model (`ModpathBas(m)` with every constructor default). -/
def pDefaultNoFlow : ModpathBas := ModpathBas.init mNoFlow

/-- A default-constructed `ModpathBas` attached to the model carrying an
LPF flow package. -/
def pDefaultLpf : ModpathBas := ModpathBas.init mLpf

/-- A `ModpathBas` built with `def_face_ct=2` but only one budget label
(`bud_label=['RECHARGE']`, `def_iface=[6,1]`): mismatched label/count
input. -/
def pShortLabels : ModpathBas :=
  ModpathBas.init mLpf (-9999) (-8888) 2 (some ["RECHARGE"]) (some [6, 1])

/-! ## Claims -/

/-- C1: with none of the three flow-package collaborators (BCF6, LPF, UPW)
registered on the parent model, `write_file` does not fail with an explicit
"missing required flow package" error: it crashes opaquely with Python's
`UnboundLocalError` on the never-assigned local `lc` at the
`lc.set_fmtin('(40I2)')` line.  The code therefore contradicts the claim's
required behavior (the claim matches the spec's stated intent; the legacy
code is the deficient side). -/
theorem c1_missing_flow_package_crashes_unbound_local :
    (ModpathBas.write_file mNoFlow pDefaultNoFlow).error
      = some (PyError.unboundLocal "lc") := by decide

/-- C2: on the missing-flow-package failure, `write_file` is not atomic: the
banner lines, the `hnoflo`/`hdry` line and the face-count line have already
been flushed to the opened file when the crash occurs, so a partial output
file is left behind (and the call indeed failed). -/
theorem c2_missing_flow_package_leaves_partial_file :
    (ModpathBas.write_file mNoFlow pDefaultNoFlow).content
        = "## MPBAS for Modpath, generated by Flopy.\n##\n    -9999.000000     -8888.000000\n   0\n"
      ∧ (ModpathBas.write_file mNoFlow pDefaultNoFlow).content ≠ ""
      ∧ (ModpathBas.write_file mNoFlow pDefaultNoFlow).error ≠ none := by
  exact ⟨by decide, by decide, by decide⟩

/-- C3: constructing with `def_face_ct=2` but only one budget label raises no
configuration error at construction time: the constructor stores the
mismatched sequences unvalidated, and the failure surfaces only inside
`write_file`, as an `IndexError` on `self.bud_label[1]`, after part of the
file has been written. -/
theorem c3_mismatched_labels_not_rejected_at_construction :
    (ModpathBas.init mLpf (-9999) (-8888) 2 (some ["RECHARGE"]) (some [6, 1])).bud_label
        = some ["RECHARGE"]
      ∧ (ModpathBas.write_file mLpf pShortLabels).error = some PyError.indexError
      ∧ (ModpathBas.write_file mLpf pShortLabels).closed = false := by
  exact ⟨by decide, by decide, by decide⟩

/-- C4: the output file handle is not released unconditionally: `write_file`
has no `try`/`finally` or `with` block, so `f_bas.close()` is reached on the
success path but skipped on failure paths (missing flow package, or a
failing label lookup). -/
theorem c4_handle_not_released_on_failure_path :
    (ModpathBas.write_file mLpf pDefaultLpf).closed = true
      ∧ (ModpathBas.write_file mNoFlow pDefaultNoFlow).closed = false
      ∧ (ModpathBas.write_file mLpf pShortLabels).closed = false := by
  exact ⟨by decide, by decide, by decide⟩

/-- C9: two constructions differing only in the `laytyp` constructor
argument, with all other arguments and the parent model state equal, give
byte-identical `write_file` outcomes: the stored `laytyp` attribute is never
read by `write_file` (the layer-type line always comes from the probed flow
package). -/
theorem c9_laytyp_never_influences_output (m : MfModel) (hn hd : ℚ) (ct : Int)
    (bl : Option (List String)) (di : Option (List Int)) (lt1 lt2 : Int)
    (ib : ArrInput Int) (pr prcb : ArrInput ℚ) :
    ModpathBas.write_file m (ModpathBas.init m hn hd ct bl di lt1 ib pr prcb)
      = ModpathBas.write_file m (ModpathBas.init m hn hd ct bl di lt2 ib pr prcb) := rfl

/-- C5 counterexample: with `hnoflo=-9999.0, hdry=-8888.0` the second line of
the output file is the banner line `"##"`, not the claimed 35-character
string; indeed the claimed string (whose fields are 17 characters wide)
appears nowhere in the file, because the code formats each scalar in a
width-16 field. -/
theorem c5_counterexample :
    (fileLines (ModpathBas.write_file mLpf pDefaultLpf).content).get? 1
        ≠ some "     -9999.000000      -8888.000000"
      ∧ "     -9999.000000      -8888.000000"
          ∉ fileLines (ModpathBas.write_file mLpf pDefaultLpf).content := by
  exact ⟨by decide, by decide⟩

/-- C5 (amended): with `hnoflo=-9999.0, hdry=-8888.0`, the third line of the
output file (the first two being the banner comment lines) equals the exact
string `"    -9999.000000     -8888.000000"`: both scalars formatted as
width-16, 6-decimal fixed-point fields separated by a single space. -/
theorem c5_third_line_fixed_format (m : MfModel) (ct : Int)
    (bl : Option (List String)) (di : Option (List Int)) (lt : Int)
    (ib : ArrInput Int) (pr prcb : ArrInput ℚ) :
    (fileLines (ModpathBas.write_file m
        (ModpathBas.init m (-9999) (-8888) ct bl di lt ib pr prcb)).content).get? 2
      = some "    -9999.000000     -8888.000000" := by
  obtain ⟨t, ht⟩ := write_file_content_shape m
    (ModpathBas.init m (-9999) (-8888) ct bl di lt ib pr prcb)
  have h12 : headerLines (ModpathBas.init m (-9999) (-8888) ct bl di lt ib pr prcb)
        ++ scalarLine (ModpathBas.init m (-9999) (-8888) ct bl di lt ib pr prcb)
      = "## MPBAS for Modpath, generated by Flopy.\n##\n    -9999.000000     -8888.000000\n" := by
    simp only [headerLines, scalarLine, ModpathBas.init]
    decide
  have key : ("## MPBAS for Modpath, generated by Flopy.\n##\n    -9999.000000     -8888.000000\n" : String).data
      = "## MPBAS for Modpath, generated by Flopy.".data
        ++ '\n' :: ("##".data ++ '\n' :: ("    -9999.000000     -8888.000000".data ++ ['\n'])) := by
    decide
  have hshape : (ModpathBas.write_file m
        (ModpathBas.init m (-9999) (-8888) ct bl di lt ib pr prcb)).content.data
      = "## MPBAS for Modpath, generated by Flopy.".data
        ++ '\n' :: ("##".data ++ '\n' :: ("    -9999.000000     -8888.000000".data
          ++ '\n' :: (faceCountLine (ModpathBas.init m (-9999) (-8888) ct bl di lt ib pr prcb)
            ++ t).data)) := by
    rw [ht, String.append_assoc, h12, String.data_append, key]
    simp [List.append_assoc]
  have hres := fileLines_third_line _ _ _ _ _ hshape (by decide) (by decide) (by decide)
  simpa using hres

/-- The C6 scenario: `def_face_ct=2`, `bud_label=['RECHARGE','WELLS']`,
`def_iface=[6,1]`. -/
def pFaceDemo : ModpathBas :=
  ModpathBas.init mLpf (-9999) (-8888) 2 (some ["RECHARGE", "WELLS"]) (some [6, 1])

/-- C6: with `def_face_ct=2, budgetLabels=["RECHARGE","WELLS"],
defaultFaceCodes=[6,1]`, the four lines after the face-count line (line
index 3) are, in order: the label `"RECHARGE"` left-justified to width 20,
the code `" 6"` as a width-2 integer, the label `"WELLS"` left-justified to
width 20, and the code `" 1"`; and in general, for any positive
`def_face_ct` covered by the two sequences, the face section is the in-order
concatenation, one entry at a time, of one width-20 label line followed by
one width-2 code line. -/
theorem c6_face_pair_lines :
    ((fileLines (ModpathBas.write_file mLpf pFaceDemo).content).get? 3 = some "   2"
      ∧ (fileLines (ModpathBas.write_file mLpf pFaceDemo).content).get? 4
          = some "RECHARGE            "
      ∧ (fileLines (ModpathBas.write_file mLpf pFaceDemo).content).get? 5 = some " 6"
      ∧ (fileLines (ModpathBas.write_file mLpf pFaceDemo).content).get? 6
          = some "WELLS               "
      ∧ (fileLines (ModpathBas.write_file mLpf pFaceDemo).content).get? 7 = some " 1")
    ∧ ∀ (ct : Int) (labels : List String) (codes : List Int),
        0 < ct → ct.toNat ≤ labels.length → ct.toNat ≤ codes.length →
        faceLoop ct (some labels) (some codes)
          = (concatStrs (((labels.take ct.toNat).zip (codes.take ct.toNat)).map
              (fun pc => formatStrW 20 pc.1 ++ "\n" ++ formatIntW 2 pc.2 ++ "\n")), none) := by
  constructor
  · exact ⟨by decide, by decide, by decide, by decide, by decide⟩
  · intro ct labels codes hct h1 h2
    unfold faceLoop
    rw [if_pos hct, faceLoopAux_ok labels codes ct.toNat 0 (by omega) (by omega)]
    simp

/-- Closed witness for the general part of C6 at the claim's own input. -/
theorem c6_face_pair_lines_witness :
    faceLoop 2 (some ["RECHARGE", "WELLS"]) (some [6, 1])
      = ("RECHARGE            \n 6\nWELLS               \n 1\n", none) := by
  have h := c6_face_pair_lines.2 2 ["RECHARGE", "WELLS"] [6, 1]
    (by decide) (by decide) (by decide)
  exact h.trans (by decide)

/-- A model with all three flow packages registered, with distinct
layer-type arrays, so the probe order is observable. -/
def mAll : MfModel :=
  { nrow := 1, ncol := 1, nlay := 2, nper := 1
    bcf6 := some ⟨[1, 0]⟩, lpf := some ⟨[9, 9]⟩, upw := some ⟨[8, 8]⟩ }

/-- A model with only the UPW flow package registered. -/
def mUpwOnly : MfModel :=
  { nrow := 1, ncol := 1, nlay := 1, nper := 1
    bcf6 := none, lpf := none, upw := some ⟨[3]⟩ }

/-- C7: the layer-type line is resolved by probing the parent model in the
fixed priority order BCF6, then LPF, then UPW, taking the first match and
reading that package's own per-layer layer-type array (`laycon` for BCF6,
`laytyp` for LPF/UPW), never this config's stored `laytyp`; a successful
`write_file` splices exactly that section, rendered in the
2-character-wide, 40-values-per-line `'(40I2)'` format, between the face
section and the grid arrays.  The final conjuncts pin the `(40I2)` rendering:
width-2 fields, and a break after 40 values. -/
theorem c7_layer_type_resolution :
    (∀ (m : MfModel) (pkg : BCF6Pkg), m.bcf6 = some pkg →
        layerSection m = some (fmt40I2 pkg.laycon))
    ∧ (∀ (m : MfModel) (pkg : LPFPkg), m.bcf6 = none → m.lpf = some pkg →
        layerSection m = some (fmt40I2 pkg.laytyp))
    ∧ (∀ (m : MfModel) (pkg : UPWPkg), m.bcf6 = none → m.lpf = none →
        m.upw = some pkg → layerSection m = some (fmt40I2 pkg.laytyp))
    ∧ (∀ (m : MfModel) (p : ModpathBas) (fs ls : String),
        faceLoop p.def_face_ct p.bud_label p.def_iface = (fs, none) →
        layerSection m = some ls →
        (ModpathBas.write_file m p).content
          = headerLines p ++ scalarLine p ++ faceCountLine p ++ fs ++ ls
            ++ arraysSection p)
    ∧ fmt40I2 [1, 0] = " 1 0\n"
    ∧ fmt40I2 (List.replicate 40 0 ++ [1])
        = concatStrs (List.replicate 40 " 0") ++ "\n" ++ (" 1" ++ "\n") := by
  refine ⟨?_, ?_, ?_, ?_, by decide, by decide⟩
  · intro m pkg h
    simp [layerSection, resolveLayerVals, h]
  · intro m pkg h h'
    simp [layerSection, resolveLayerVals, h, h']
  · intro m pkg h h' h''
    simp [layerSection, resolveLayerVals, h, h', h'']
  · intro m p fs ls hf hl
    simp [ModpathBas.write_file, hf, hl, String.append_assoc]

/-- Closed witness for C7: on a model with all three packages present the
BCF6 `laycon` array wins; LPF wins over UPW when BCF6 is absent; UPW is used
last; and a default `write_file` on the LPF model splices the resolved
section into the output. -/
theorem c7_layer_type_resolution_witness :
    layerSection mAll = some (fmt40I2 [1, 0])
      ∧ layerSection mLpf = some (fmt40I2 [0])
      ∧ layerSection mUpwOnly = some (fmt40I2 [3])
      ∧ (ModpathBas.write_file mLpf pDefaultLpf).content
          = headerLines pDefaultLpf ++ scalarLine pDefaultLpf
            ++ faceCountLine pDefaultLpf ++ "" ++ fmt40I2 [0]
            ++ arraysSection pDefaultLpf := by
  refine ⟨c7_layer_type_resolution.1 mAll ⟨[1, 0]⟩ rfl,
    c7_layer_type_resolution.2.1 mLpf ⟨[0]⟩ rfl rfl,
    c7_layer_type_resolution.2.2.1 mUpwOnly ⟨[3]⟩ rfl rfl rfl,
    c7_layer_type_resolution.2.2.2.1 mLpf pDefaultLpf "" (fmt40I2 [0])
      (by decide) (by decide)⟩

/-- C8: a scalar input for any of the three grid arrays broadcasts, at
construction, to the uniform grid-shaped array of that value, for every grid
shape carried by the parent model; the serialized porosity section
accordingly renders one identical field per cell. -/
theorem c8_scalar_broadcast (m : MfModel) (hn hd : ℚ) (ct : Int)
    (bl : Option (List String)) (di : Option (List Int)) (lt : Int)
    (i0 : Int) (q qcb : ℚ) :
    (ModpathBas.init m hn hd ct bl di lt (.scalar i0) (.scalar q) (.scalar qcb)).prsity
        = List.replicate m.nlay (List.replicate m.nrow (List.replicate m.ncol q))
      ∧ (ModpathBas.init m hn hd ct bl di lt (.scalar i0) (.scalar q) (.scalar qcb)).ibound
          = List.replicate m.nlay (List.replicate m.nrow (List.replicate m.ncol i0))
      ∧ (ModpathBas.init m hn hd ct bl di lt (.scalar i0) (.scalar q) (.scalar qcb)).prsityCB
          = List.replicate m.nlay (List.replicate m.nrow (List.replicate m.ncol qcb))
      ∧ util3dFileEntryRat "prsity"
            ((ModpathBas.init m hn hd ct bl di lt (.scalar i0) (.scalar q) (.scalar qcb)).prsity)
          = "INTERNAL prsity\n" ++ concatStrs (List.replicate m.nlay
              (concatStrs (List.replicate m.nrow
                (concatStrs (List.replicate m.ncol (padLeft 15 (fixed6 q))) ++ "\n")))) := by
  refine ⟨rfl, rfl, rfl, ?_⟩
  simp [util3dFileEntryRat, ModpathBas.init, util3dResolve, List.map_replicate]

/-- C10: when `def_face_ct ≤ 0` (including the default construction, where
both sequences are absent), the face loop writes nothing and raises nothing,
`write_file` never touches `bud_label` or `def_iface` (its outcome is
identical for arbitrary replacements of them), and the width-4 face-count
line is still written right after the scalar line. -/
theorem c10_nonpositive_face_count_safe (m : MfModel) (hn hd : ℚ) (ct : Int)
    (hct : ct ≤ 0) (bl bl' : Option (List String)) (di di' : Option (List Int))
    (lt : Int) (ib : ArrInput Int) (pr prcb : ArrInput ℚ) :
    faceLoop ct bl di = ("", none)
      ∧ ModpathBas.write_file m (ModpathBas.init m hn hd ct bl di lt ib pr prcb)
          = ModpathBas.write_file m (ModpathBas.init m hn hd ct bl' di' lt ib pr prcb)
      ∧ ∃ t, (ModpathBas.write_file m
            (ModpathBas.init m hn hd ct bl di lt ib pr prcb)).content
          = headerLines (ModpathBas.init m hn hd ct bl di lt ib pr prcb)
            ++ scalarLine (ModpathBas.init m hn hd ct bl di lt ib pr prcb)
            ++ (formatIntW 4 ct ++ "\n") ++ t := by
  have hfl : ∀ (b : Option (List String)) (d : Option (List Int)),
      faceLoop ct b d = ("", none) := by
    intro b d
    unfold faceLoop
    rw [if_neg (by omega)]
  refine ⟨hfl bl di, ?_, ?_⟩
  · cases hls : layerSection m with
    | none =>
      simp [ModpathBas.write_file, ModpathBas.init, headerLines, scalarLine,
        faceCountLine, arraysSection, hfl, hls]
    | some ls =>
      simp [ModpathBas.write_file, ModpathBas.init, headerLines, scalarLine,
        faceCountLine, arraysSection, hfl, hls]
  · obtain ⟨t, ht⟩ := write_file_content_shape m
      (ModpathBas.init m hn hd ct bl di lt ib pr prcb)
    exact ⟨t, by rw [ht]; simp only [faceCountLine, ModpathBas.init]⟩

/-- Closed witness for C10 at the default construction (`def_face_ct = 0`,
sequences absent or present but never read). -/
theorem c10_nonpositive_face_count_safe_witness :
    faceLoop 0 (some ["X"]) (some [5]) = ("", none)
      ∧ ModpathBas.write_file mLpf (ModpathBas.init mLpf (-9999) (-8888) 0
            (some ["X"]) (some [5]) 0 (.scalar 1) (.scalar (mkRat 3 10)) (.scalar (mkRat 3 10)))
          = ModpathBas.write_file mLpf (ModpathBas.init mLpf (-9999) (-8888) 0
            none none 0 (.scalar 1) (.scalar (mkRat 3 10)) (.scalar (mkRat 3 10))) := by
  have h := c10_nonpositive_face_count_safe mLpf (-9999) (-8888) 0 (by decide)
    (some ["X"]) none (some [5]) none 0 (.scalar 1) (.scalar (mkRat 3 10))
    (.scalar (mkRat 3 10))
  exact ⟨h.1, h.2.1⟩
